import Mathlib

/-!
Shallow embedding of the schema validator of `graphql-with-inputunion`
(`type/validate.js.flow`) and of the suggestion-list formatter
(`jsutils/orList.js`), together with theorems settling the specification
claims about them.

External collaborators of the validator (the identifier-grammar checker,
the introspection-type set, and the subtype/equality comparators over
wrapped type references) are consumed, not re-specified, by the source;
they are modelled here as an explicit record of oracles (`Ext`) that every
validator threads through, exactly as the source imports them.
-/

set_option autoImplicit false

namespace GraphQLValidate

/-- Source-AST nodes, with exactly the structure `validate.js.flow`
navigates: schema nodes carry operation-type entries, object and interface
definition nodes carry field nodes (object nodes also carry claimed
interface nodes), field and input-value nodes carry a name, a type node
and (for fields) argument nodes, union nodes carry member type nodes,
enum nodes carry value nodes. `other` stands for any further node used
only as a diagnostic location. -/
inductive ASTNode where
  | schemaDef (operationTypes : List (String × ASTNode))
  | namedTypeNode (name : String)
  | typeRefNode (rendered : String)
  | inputValueDef (name : String) (type : ASTNode)
  | fieldDef (name : String) (type : ASTNode) (arguments : List ASTNode)
  | objectDef (fields : List ASTNode) (interfaces : List ASTNode)
  | unionDef (types : List ASTNode)
  | enumValueDef (name : String)
  | enumDef (values : List ASTNode)
  | directiveDef (arguments : List ASTNode)
  | other (id : Nat)

/-- The `name.value` of an AST node, when it has one (JS `node.name.value`). -/
def ASTNode.nameValue : ASTNode → Option String
  | .namedTypeNode n => some n
  | .inputValueDef n _ => some n
  | .fieldDef n _ _ => some n
  | .enumValueDef n => some n
  | _ => none

/-- The `type` component of a field or input-value definition node. -/
def ASTNode.typeOf : ASTNode → Option ASTNode
  | .inputValueDef _ t => some t
  | .fieldDef _ t _ => some t
  | _ => none

/-- The `arguments` component of a field or directive definition node. -/
def ASTNode.argumentsOf : ASTNode → Option (List ASTNode)
  | .fieldDef _ _ args => some args
  | .directiveDef args => some args
  | _ => none

/-- The `fields` component of an object/interface definition node. -/
def ASTNode.fieldsOf : ASTNode → Option (List ASTNode)
  | .objectDef fs _ => some fs
  | _ => none

/-- The `interfaces` component of an object definition node. -/
def ASTNode.interfacesOf : ASTNode → Option (List ASTNode)
  | .objectDef _ is => some is
  | _ => none

/-- The `types` component of a union/input-union definition node. -/
def ASTNode.typesOf : ASTNode → Option (List ASTNode)
  | .unionDef ts => some ts
  | _ => none

/-- The `values` component of an enum definition node. -/
def ASTNode.valuesOf : ASTNode → Option (List ASTNode)
  | .enumDef vs => some vs
  | _ => none

/-- The `operationTypes` component of a schema definition node. -/
def ASTNode.operationTypesOf : ASTNode → Option (List (String × ASTNode))
  | .schemaDef ops => some ops
  | _ => none

/-- A diagnostic: a `GraphQLError` as the validator constructs it, a
message plus the (already null-filtered) list of source locations. -/
structure GraphQLError where
  message : String
  nodes : List ASTNode

/-- `reportError` with a single optional node: `[nodes].filter(Boolean)`. -/
def mkError1 (message : String) (node : Option ASTNode) : GraphQLError :=
  ⟨message, node.toList⟩

/-- `reportError` with an array of possibly-null nodes: `.filter(Boolean)`. -/
def mkErrorL (message : String) (nodes : List (Option ASTNode)) : GraphQLError :=
  ⟨message, nodes.filterMap id⟩

/-- `reportError` with a possibly-null array of nodes (as returned by the
member/enum-value node locators): a null array degrades to no locations. -/
def mkErrorOpt (message : String) (nodes : Option (List ASTNode)) : GraphQLError :=
  ⟨message, nodes.getD []⟩

/-- A (possibly wrapped) type reference as it appears in field, argument
and input-field positions: a named core of one of the seven kinds, under
arbitrary list/non-null wrapping. The validator inspects references only
through the classification predicates, the renderer and the external
comparators. -/
inductive GType where
  | scalarRef (name : String)
  | objectRef (name : String)
  | interfaceRef (name : String)
  | unionRef (name : String)
  | inputUnionRef (name : String)
  | enumRef (name : String)
  | inputObjectRef (name : String)
  | listOf (ofType : GType)
  | nonNull (ofType : GType)
deriving DecidableEq

/-- JS `String(type)` on a type reference. -/
def GType.render : GType → String
  | .scalarRef n => n
  | .objectRef n => n
  | .interfaceRef n => n
  | .unionRef n => n
  | .inputUnionRef n => n
  | .enumRef n => n
  | .inputObjectRef n => n
  | .listOf t => "[" ++ t.render ++ "]"
  | .nonNull t => t.render ++ "!"

/-- Modelled from the spec: the external input-classification predicate
(`isInputType` of `type/definition`, not under `src/`) — a reference
classifies as input when its named core is Scalar, Enum or InputObject,
seen through any list/non-null wrappers; InputUnion is deliberately not
included (the validator tests it separately). -/
def GType.isInputType : GType → Bool
  | .scalarRef _ => true
  | .enumRef _ => true
  | .inputObjectRef _ => true
  | .listOf t => t.isInputType
  | .nonNull t => t.isInputType
  | _ => false

/-- Modelled from the spec: the external output-classification predicate
(`isOutputType` of `type/definition`, not under `src/`) — a reference
classifies as output when its named core is Scalar, Object, Interface,
Union or Enum, seen through any wrappers. -/
def GType.isOutputType : GType → Bool
  | .scalarRef _ => true
  | .objectRef _ => true
  | .interfaceRef _ => true
  | .unionRef _ => true
  | .enumRef _ => true
  | .listOf t => t.isOutputType
  | .nonNull t => t.isOutputType
  | _ => false

/-- Modelled from the spec: `isInputUnionType` on a type reference is a
top-level kind test (no unwrapping), like the other per-kind predicates. -/
def GType.isInputUnionType : GType → Bool
  | .inputUnionRef _ => true
  | _ => false

/-- Modelled from the spec: `isNonNullType` is a top-level wrapper test. -/
def GType.isNonNullType : GType → Bool
  | .nonNull _ => true
  | _ => false

/-- An argument of a field or directive (also reused for the input fields
of an InputObject, which carry the same name/type/astNode shape). -/
structure ArgDef where
  name : String
  type : GType
  astNode : Option ASTNode

/-- A field of an Object or Interface type. -/
structure FieldDef where
  name : String
  type : GType
  args : List ArgDef
  astNode : Option ASTNode

/-- A value of an Enum type. -/
structure EnumValue where
  name : String
  astNode : Option ASTNode

/-- A value of the schema's type map. The seven named kinds carry the
payload the validator reads; `notNamed` stands for a type-map value that
fails `isNamedType` (the source reports it and moves on), carrying only
its `String(...)` rendering and optional `astNode`. -/
inductive NamedType where
  | scalarT (name : String) (astNode : Option ASTNode)
  | objectT (name : String) (fields : List FieldDef) (interfaces : List NamedType)
      (astNode : Option ASTNode) (extensionASTNodes : Option (List ASTNode))
  | interfaceT (name : String) (fields : List FieldDef)
      (astNode : Option ASTNode) (extensionASTNodes : Option (List ASTNode))
  | unionT (name : String) (types : List NamedType) (astNode : Option ASTNode)
  | inputUnionT (name : String) (types : List NamedType) (astNode : Option ASTNode)
  | enumT (name : String) (values : List EnumValue) (astNode : Option ASTNode)
  | inputObjectT (name : String) (fields : List ArgDef) (astNode : Option ASTNode)
  | notNamed (rendered : String) (astNode : Option ASTNode)

/-- The `name` of a type-map value (for `notNamed` the JS `.name` access
has no meaningful value; we return the rendering, which the validator
never relies on). -/
def NamedType.name : NamedType → String
  | .scalarT n _ => n
  | .objectT n _ _ _ _ => n
  | .interfaceT n _ _ _ => n
  | .unionT n _ _ => n
  | .inputUnionT n _ _ => n
  | .enumT n _ _ => n
  | .inputObjectT n _ _ => n
  | .notNamed r _ => r

/-- JS `String(type)` on a type-map value: the name for named types. -/
def NamedType.render : NamedType → String
  | .notNamed r _ => r
  | t => t.name

/-- The primary AST node of a type-map value. -/
def NamedType.astNodeOf : NamedType → Option ASTNode
  | .scalarT _ a => a
  | .objectT _ _ _ a _ => a
  | .interfaceT _ _ a _ => a
  | .unionT _ _ a => a
  | .inputUnionT _ _ a => a
  | .enumT _ _ a => a
  | .inputObjectT _ _ a => a
  | .notNamed _ a => a

/-- The `extensionASTNodes` of an object/interface type (absent on the
other kinds). -/
def NamedType.extensionASTNodesOf : NamedType → Option (List ASTNode)
  | .objectT _ _ _ _ e => e
  | .interfaceT _ _ _ e => e
  | _ => none

/-- `type.getFields()` of an Object or Interface type, in declaration
order (the JS field map preserves insertion order). -/
def NamedType.fieldDefs : NamedType → List FieldDef
  | .objectT _ fs _ _ _ => fs
  | .interfaceT _ fs _ _ => fs
  | _ => []

/-- `object.getInterfaces()`. -/
def NamedType.interfaceDefs : NamedType → List NamedType
  | .objectT _ _ is _ _ => is
  | _ => []

/-- `union.getTypes()` / `inputUnion.getTypes()`. -/
def NamedType.memberTypes : NamedType → List NamedType
  | .unionT _ ts _ => ts
  | .inputUnionT _ ts _ => ts
  | _ => []

/-- `enumType.getValues()`. -/
def NamedType.enumValues : NamedType → List EnumValue
  | .enumT _ vs _ => vs
  | _ => []

/-- `inputObj.getFields()`. -/
def NamedType.inputFieldDefs : NamedType → List ArgDef
  | .inputObjectT _ fs _ => fs
  | _ => []

/-- `isObjectType` (per-kind predicates are top-level kind tests). -/
def NamedType.isObjectType : NamedType → Bool
  | .objectT _ _ _ _ _ => true
  | _ => false

/-- `isInterfaceType`. -/
def NamedType.isInterfaceType : NamedType → Bool
  | .interfaceT _ _ _ _ => true
  | _ => false

/-- `isInputObjectType`. -/
def NamedType.isInputObjectType : NamedType → Bool
  | .inputObjectT _ _ _ => true
  | _ => false

/-- `isNamedType`: every type-map value except a non-type. -/
def NamedType.isNamedType : NamedType → Bool
  | .notNamed _ _ => false
  | _ => true

/-- A schema-registered directive. -/
structure Directive where
  name : String
  args : List ArgDef
  astNode : Option ASTNode

/-- An entry of the schema's directive list: either an actual directive or
a value failing `isDirective` (carrying its rendering and whatever
`directive && directive.astNode` yields). -/
inductive DirectiveV where
  | dir (d : Directive)
  | notDir (rendered : String) (astNode : Option ASTNode)

/-- The schema object graph as the validator consumes it: root type
references, the type map in key-iteration order, the directive list, the
optional schema AST node, the optional legacy-name allowlist, and the
one-shot validation cache cell (`__validationErrors`). -/
structure Schema where
  queryType : Option NamedType
  mutationType : Option NamedType
  subscriptionType : Option NamedType
  typeMap : List NamedType
  directives : List DirectiveV
  astNode : Option ASTNode
  allowedLegacyNames : Option (List String)
  validationErrors : Option (List GraphQLError)

/-- The external collaborators the validator imports: the identifier
grammar checker (`isValidNameError`), the introspection-type set
membership test, and the covariant-subtype and exact-equality comparators
over wrapped type references (`isTypeSubTypeOf` is applied by the source
to the one schema under validation, so the schema argument is folded into
the oracle). -/
structure Ext where
  isValidNameError : String → Option ASTNode → Option GraphQLError
  isIntrospectionType : NamedType → Bool
  isTypeSubTypeOf : GType → GType → Bool
  isEqualType : GType → GType → Bool

/-- Does an AST node's `name.value` equal the given string? -/
def ASTNode.hasName (n : ASTNode) (s : String) : Bool :=
  n.nameValue == some s

/-- `reportError` with an array of non-null nodes (`filter(Boolean)` is a
no-op). -/
def mkErrorArr (message : String) (nodes : List ASTNode) : GraphQLError :=
  ⟨message, nodes⟩

/-- `getAllObjectNodes`: the primary node followed by the extension nodes. -/
def getAllObjectNodes (t : NamedType) : List ASTNode :=
  match t.astNodeOf, t.extensionASTNodesOf with
  | some a, some ext => a :: ext
  | some a, none => [a]
  | none, some ext => ext
  | none, none => []

/-- `getAllObjectOrInterfaceNodes` (same body as `getAllObjectNodes` in the
source). -/
def getAllObjectOrInterfaceNodes (t : NamedType) : List ASTNode :=
  match t.astNodeOf, t.extensionASTNodesOf with
  | some a, some ext => a :: ext
  | some a, none => [a]
  | none, some ext => ext
  | none, none => []

/-- `getAllImplementsInterfaceNodes`: every claimed-interface node of the
object's definition and extension nodes whose name matches. -/
def getAllImplementsInterfaceNodes (t iface : NamedType) : List ASTNode :=
  (getAllObjectNodes t).flatMap fun a =>
    match a.interfacesOf with
    | some is => is.filter (fun n => n.hasName iface.name)
    | none => []

/-- `getImplementsInterfaceNode`: the first matching claimed-interface node. -/
def getImplementsInterfaceNode (t iface : NamedType) : Option ASTNode :=
  (getAllImplementsInterfaceNodes t iface).head?

/-- `getAllFieldNodes`: every field node of the type's definition and
extension nodes whose name matches. -/
def getAllFieldNodes (t : NamedType) (fieldName : String) : List ASTNode :=
  (getAllObjectOrInterfaceNodes t).flatMap fun a =>
    match a.fieldsOf with
    | some fs => fs.filter (fun n => n.hasName fieldName)
    | none => []

/-- `getFieldNode`: the first matching field node. -/
def getFieldNode (t : NamedType) (fieldName : String) : Option ASTNode :=
  (getAllFieldNodes t fieldName).head?

/-- `getFieldTypeNode`: the type node of the first matching field node. -/
def getFieldTypeNode (t : NamedType) (fieldName : String) : Option ASTNode :=
  (getFieldNode t fieldName).bind ASTNode.typeOf

/-- `getAllFieldArgNodes`: the matching argument nodes of the first
matching field node. -/
def getAllFieldArgNodes (t : NamedType) (fieldName argName : String) : List ASTNode :=
  match (getFieldNode t fieldName).bind ASTNode.argumentsOf with
  | some args => args.filter (fun n => n.hasName argName)
  | none => []

/-- `getFieldArgNode`: the first matching argument node. -/
def getFieldArgNode (t : NamedType) (fieldName argName : String) : Option ASTNode :=
  (getAllFieldArgNodes t fieldName argName).head?

/-- `getFieldArgTypeNode`: the type node of the first matching argument. -/
def getFieldArgTypeNode (t : NamedType) (fieldName argName : String) : Option ASTNode :=
  (getFieldArgNode t fieldName argName).bind ASTNode.typeOf

/-- `getAllDirectiveArgNodes`: the matching argument nodes of the
directive's definition node. -/
def getAllDirectiveArgNodes (d : Directive) (argName : String) : List ASTNode :=
  match d.astNode.bind ASTNode.argumentsOf with
  | some args => args.filter (fun n => n.hasName argName)
  | none => []

/-- `getDirectiveArgTypeNode`: the type node of the first matching
directive-argument node. -/
def getDirectiveArgTypeNode (d : Directive) (argName : String) : Option ASTNode :=
  (getAllDirectiveArgNodes d argName).head?.bind ASTNode.typeOf

/-- `getUnionMemberTypeNodes`: the member type nodes of the union's
definition node with the given name, or null when the node (or its member
list) is absent. -/
def getUnionMemberTypeNodes (u : NamedType) (typeName : String) :
    Option (List ASTNode) :=
  (u.astNodeOf.bind ASTNode.typesOf).map fun ts =>
    ts.filter (fun n => n.hasName typeName)

/-- `getInputUnionMemberTypeNodes` (same body as `getUnionMemberTypeNodes`
in the source). -/
def getInputUnionMemberTypeNodes (u : NamedType) (typeName : String) :
    Option (List ASTNode) :=
  (u.astNodeOf.bind ASTNode.typesOf).map fun ts =>
    ts.filter (fun n => n.hasName typeName)

/-- `getEnumValueNodes`: the value nodes of the enum's definition node
with the given name, or null when absent. -/
def getEnumValueNodes (t : NamedType) (valueName : String) :
    Option (List ASTNode) :=
  (t.astNodeOf.bind ASTNode.valuesOf).map fun vs =>
    vs.filter (fun n => n.hasName valueName)

/-- `validateName`: the legacy-name allowlist, when it contains this exact
name, bypasses checking; otherwise delegate to the external grammar
checker and append its diagnostic, if any. -/
def validateName (E : Ext) (s : Schema) (name : String)
    (astNode : Option ASTNode) : List GraphQLError :=
  if (s.allowedLegacyNames.getD []).contains name then []
  else (E.isValidNameError name astNode).toList

/-- `getOperationTypeNode`: the matching operation-type node of the schema
definition node, falling back to the root type's own node. -/
def getOperationTypeNode (s : Schema) (t : NamedType) (operation : String) :
    Option ASTNode :=
  match s.astNode with
  | none => t.astNodeOf
  | some a =>
      match (a.operationTypesOf.getD []).find? (fun p => p.1 == operation) with
      | some p => some p.2
      | none => t.astNodeOf

/-- The query-root branch of `validateRootTypes`. -/
def queryRootErrors (s : Schema) : List GraphQLError :=
  match s.queryType with
  | none => [mkError1 "Query root type must be provided." s.astNode]
  | some t =>
      if t.isObjectType then []
      else
        [mkError1
          ("Query root type must be Object type, it cannot be " ++
            t.render ++ ".")
          (getOperationTypeNode s t "query")]

/-- The mutation-root branch of `validateRootTypes`. -/
def mutationRootErrors (s : Schema) : List GraphQLError :=
  match s.mutationType with
  | none => []
  | some t =>
      if t.isObjectType then []
      else
        [mkError1
          ("Mutation root type must be Object type if provided, it cannot be " ++
            t.render ++ ".")
          (getOperationTypeNode s t "mutation")]

/-- The subscription-root branch of `validateRootTypes`. -/
def subscriptionRootErrors (s : Schema) : List GraphQLError :=
  match s.subscriptionType with
  | none => []
  | some t =>
      if t.isObjectType then []
      else
        [mkError1
          ("Subscription root type must be Object type if provided, it cannot be " ++
            t.render ++ ".")
          (getOperationTypeNode s t "subscription")]

/-- `validateRootTypes`. -/
def validateRootTypes (s : Schema) : List GraphQLError :=
  queryRootErrors s ++ mutationRootErrors s ++ subscriptionRootErrors s

/-- The argument loop of `validateDirectives`, threading the set of
argument names already seen on this directive. A duplicate is reported
once and the loop continues with the next argument, skipping the
input-type check for the duplicate occurrence. -/
def directiveArgsLoop (E : Ext) (s : Schema) (d : Directive)
    (seen : List String) : List ArgDef → List GraphQLError
  | [] => []
  | arg :: rest =>
      validateName E s arg.name arg.astNode ++
        (if seen.contains arg.name then
          mkErrorArr
              ("Argument @" ++ d.name ++ "(" ++ arg.name ++
                ":) can only be defined once.")
              (getAllDirectiveArgNodes d arg.name) ::
            directiveArgsLoop E s d seen rest
        else
          (if arg.type.isInputType || arg.type.isInputUnionType then []
           else
            [mkError1
              ("The type of @" ++ d.name ++ "(" ++ arg.name ++
                ":) must be Input Type but got: " ++ arg.type.render ++ ".")
              (getDirectiveArgTypeNode d arg.name)]) ++
            directiveArgsLoop E s d (arg.name :: seen) rest)

/-- The per-directive body of `validateDirectives`. -/
def validateDirectiveEntry (E : Ext) (s : Schema) : DirectiveV → List GraphQLError
  | .notDir r a => [mkError1 ("Expected directive but got: " ++ r ++ ".") a]
  | .dir d => validateName E s d.name d.astNode ++ directiveArgsLoop E s d [] d.args

/-- `validateDirectives`. -/
def validateDirectives (E : Ext) (s : Schema) : List GraphQLError :=
  s.directives.flatMap (validateDirectiveEntry E s)

/-- The argument loop of `validateFields`, threading the set of argument
names already seen on this field. A duplicate is reported, but (unlike the
directive-argument loop) the input-type check still runs for the duplicate
occurrence: the source has no early continue here. -/
def fieldArgsLoop (E : Ext) (s : Schema) (t : NamedType) (fieldName : String)
    (seen : List String) : List ArgDef → List GraphQLError
  | [] => []
  | arg :: rest =>
      validateName E s arg.name arg.astNode ++
        (if seen.contains arg.name then
          [mkErrorArr
            ("Field argument " ++ t.name ++ "." ++ fieldName ++ "(" ++
              arg.name ++ ":) can only be defined once.")
            (getAllFieldArgNodes t fieldName arg.name)]
         else []) ++
        (if arg.type.isInputType || arg.type.isInputUnionType then []
         else
          [mkError1
            ("The type of " ++ t.name ++ "." ++ fieldName ++ "(" ++
              arg.name ++ ":) must be Input Type but got: " ++
              arg.type.render ++ ".")
            (getFieldArgTypeNode t fieldName arg.name)]) ++
        fieldArgsLoop E s t fieldName (arg.name :: seen) rest

/-- The per-field body of `validateFields`: name check, then the duplicate
check — a field defined by more than one AST node is reported and its
remaining checks (output-type classification and arguments) are skipped. -/
def validateFieldEntry (E : Ext) (s : Schema) (t : NamedType)
    (field : FieldDef) : List GraphQLError :=
  validateName E s field.name field.astNode ++
    (let fieldNodes := getAllFieldNodes t field.name
     if fieldNodes.length > 1 then
       [mkErrorArr
         ("Field " ++ t.name ++ "." ++ field.name ++
           " can only be defined once.")
         fieldNodes]
     else
       (if field.type.isOutputType then []
        else
         [mkError1
           ("The type of " ++ t.name ++ "." ++ field.name ++
             " must be Output Type but got: " ++ field.type.render ++ ".")
           (getFieldTypeNode t field.name)]) ++
         fieldArgsLoop E s t field.name [] field.args)

/-- `validateFields` (shared by Object and Interface types). -/
def validateFields (E : Ext) (s : Schema) (t : NamedType) : List GraphQLError :=
  (if t.fieldDefs.length == 0 then
    [mkErrorArr ("Type " ++ t.name ++ " must define one or more fields.")
      (getAllObjectOrInterfaceNodes t)]
   else []) ++
    t.fieldDefs.flatMap (validateFieldEntry E s t)

/-- The return-type step of `validateObjectImplementsInterface`: the
object field's type must be a valid covariant subtype of the interface
field's type, per the external comparator. -/
def checkFieldReturnType (E : Ext) (object iface : NamedType)
    (fieldName : String) (objectField ifaceField : FieldDef) : List GraphQLError :=
  if E.isTypeSubTypeOf objectField.type ifaceField.type then []
  else
    [mkErrorL
      ("Interface field " ++ iface.name ++ "." ++ fieldName ++
        " expects type " ++ ifaceField.type.render ++ " but " ++
        object.name ++ "." ++ fieldName ++ " is type " ++
        objectField.type.render ++ ".")
      [getFieldTypeNode iface fieldName, getFieldTypeNode object fieldName]]

/-- The per-interface-argument step of
`validateObjectImplementsInterface`: the object's field must declare the
argument, and its type must be exactly equal (invariant) to the interface
argument's type, per the external equality comparator. -/
def checkIfaceArg (E : Ext) (object iface : NamedType) (fieldName : String)
    (objectField : FieldDef) (ifaceArg : ArgDef) : List GraphQLError :=
  match objectField.args.find? (fun a => a.name == ifaceArg.name) with
  | none =>
      [mkErrorL
        ("Interface field argument " ++ iface.name ++ "." ++ fieldName ++
          "(" ++ ifaceArg.name ++ ":) expected but " ++ object.name ++ "." ++
          fieldName ++ " does not provide it.")
        [getFieldArgNode iface fieldName ifaceArg.name,
         getFieldNode object fieldName]]
  | some objectArg =>
      if E.isEqualType ifaceArg.type objectArg.type then []
      else
        [mkErrorL
          ("Interface field argument " ++ iface.name ++ "." ++ fieldName ++
            "(" ++ ifaceArg.name ++ ":) expects type " ++
            ifaceArg.type.render ++ " but " ++ object.name ++ "." ++
            fieldName ++ "(" ++ ifaceArg.name ++ ":) is type " ++
            objectArg.type.render ++ ".")
          [getFieldArgTypeNode iface fieldName ifaceArg.name,
           getFieldArgTypeNode object fieldName ifaceArg.name]]

/-- The extra-argument step of `validateObjectImplementsInterface`: an
argument the object's field declares beyond the interface field's
arguments is reported exactly when its type is a non-null wrapper. -/
def checkExtraArg (object iface : NamedType) (fieldName : String)
    (ifaceField : FieldDef) (objectArg : ArgDef) : List GraphQLError :=
  match ifaceField.args.find? (fun a => a.name == objectArg.name) with
  | some _ => []
  | none =>
      if objectArg.type.isNonNullType then
        [mkErrorL
          ("Object field argument " ++ object.name ++ "." ++ fieldName ++
            "(" ++ objectArg.name ++ ":) is of required type " ++
            objectArg.type.render ++
            " but is not also provided by the Interface field " ++
            iface.name ++ "." ++ fieldName ++ ".")
          [getFieldArgTypeNode object fieldName objectArg.name,
           getFieldNode iface fieldName]]
      else []

/-- The per-interface-field body of `validateObjectImplementsInterface`:
the object must provide the field; if it does, check the return type
(covariant), every interface argument (presence and invariant type
equality), and every extra object argument (must not be required). -/
def checkIfaceField (E : Ext) (object iface : NamedType)
    (ifaceField : FieldDef) : List GraphQLError :=
  match object.fieldDefs.find? (fun f => f.name == ifaceField.name) with
  | none =>
      [mkErrorL
        ("Interface field " ++ iface.name ++ "." ++ ifaceField.name ++
          " expected but " ++ object.name ++ " does not provide it.")
        [getFieldNode iface ifaceField.name, object.astNodeOf]]
  | some objectField =>
      checkFieldReturnType E object iface ifaceField.name objectField ifaceField ++
        ifaceField.args.flatMap
          (checkIfaceArg E object iface ifaceField.name objectField) ++
        objectField.args.flatMap
          (checkExtraArg object iface ifaceField.name ifaceField)

/-- `validateObjectImplementsInterface`: a claimed interface that is not
Interface-kind is reported and its conformance is not checked; otherwise
every interface field is checked against the object. -/
def validateObjectImplementsInterface (E : Ext) (object iface : NamedType) :
    List GraphQLError :=
  if iface.isInterfaceType then
    iface.fieldDefs.flatMap (checkIfaceField E object iface)
  else
    [mkError1
      ("Type " ++ object.render ++
        " must only implement Interface types, it cannot implement " ++
        iface.render ++ ".")
      (getImplementsInterfaceNode object iface)]

/-- The claimed-interface loop of `validateObjectInterfaces`, threading
the set of interface names already processed: a repeated claim is reported
once and its conformance is not re-validated. -/
def objectInterfacesLoop (E : Ext) (object : NamedType) (seen : List String) :
    List NamedType → List GraphQLError
  | [] => []
  | iface :: rest =>
      if seen.contains iface.name then
        mkErrorArr
            ("Type " ++ object.name ++ " can only implement " ++
              iface.name ++ " once.")
            (getAllImplementsInterfaceNodes object iface) ::
          objectInterfacesLoop E object seen rest
      else
        validateObjectImplementsInterface E object iface ++
          objectInterfacesLoop E object (iface.name :: seen) rest

/-- `validateObjectInterfaces`. -/
def validateObjectInterfaces (E : Ext) (object : NamedType) : List GraphQLError :=
  objectInterfacesLoop E object [] object.interfaceDefs

/-- The duplicate-member diagnostic of `validateUnionMembers`. -/
def unionDupError (u : NamedType) (memberName : String) : GraphQLError :=
  mkErrorOpt
    ("Union type " ++ u.name ++ " can only include type " ++ memberName ++
      " once.")
    (getUnionMemberTypeNodes u memberName)

/-- The member-kind diagnostic of `validateUnionMembers`: a Union may only
include Object-kind members. -/
def unionKindError (u m : NamedType) : GraphQLError :=
  mkErrorOpt
    ("Union type " ++ u.name ++
      " can only include Object types, it cannot include " ++ m.render ++ ".")
    (getUnionMemberTypeNodes u m.render)

/-- The member loop of `validateUnionMembers`, threading the set of member
names already included: a repeated member is reported once and its kind is
not re-checked; a fresh member must be Object-kind. -/
def unionMembersLoop (u : NamedType) (seen : List String) :
    List NamedType → List GraphQLError
  | [] => []
  | m :: rest =>
      if seen.contains m.name then
        unionDupError u m.name :: unionMembersLoop u seen rest
      else
        (if m.isObjectType then [] else [unionKindError u m]) ++
          unionMembersLoop u (m.name :: seen) rest

/-- `validateUnionMembers`. -/
def validateUnionMembers (u : NamedType) : List GraphQLError :=
  (if u.memberTypes.length == 0 then
    [mkError1 ("Union type " ++ u.name ++ " must define one or more member types.")
      u.astNodeOf]
   else []) ++
    unionMembersLoop u [] u.memberTypes

/-- The duplicate-member diagnostic of `validateInputUnionMembers`. -/
def inputUnionDupError (u : NamedType) (memberName : String) : GraphQLError :=
  mkErrorOpt
    ("Input Union type " ++ u.name ++ " can only include type " ++
      memberName ++ " once.")
    (getInputUnionMemberTypeNodes u memberName)

/-- The member-kind diagnostic of `validateInputUnionMembers`: an
InputUnion may only include InputObject-kind members. -/
def inputUnionKindError (u m : NamedType) : GraphQLError :=
  mkErrorOpt
    ("Input Union type " ++ u.name ++
      " can only include Input Object types, it cannot include " ++
      m.render ++ ".")
    (getInputUnionMemberTypeNodes u m.render)

/-- The member loop of `validateInputUnionMembers` — identical to the
Union loop except the required member kind is InputObject. -/
def inputUnionMembersLoop (u : NamedType) (seen : List String) :
    List NamedType → List GraphQLError
  | [] => []
  | m :: rest =>
      if seen.contains m.name then
        inputUnionDupError u m.name :: inputUnionMembersLoop u seen rest
      else
        (if m.isInputObjectType then [] else [inputUnionKindError u m]) ++
          inputUnionMembersLoop u (m.name :: seen) rest

/-- `validateInputUnionMembers`. -/
def validateInputUnionMembers (u : NamedType) : List GraphQLError :=
  (if u.memberTypes.length == 0 then
    [mkError1
      ("Input Union type " ++ u.name ++
        " must define one or more member types.")
      u.astNodeOf]
   else []) ++
    inputUnionMembersLoop u [] u.memberTypes

/-- The per-value body of `validateEnumValues`: the duplicate check (by
counting matching AST value nodes) reports but does not skip the
subsequent name and reserved-name checks. -/
def validateEnumValueEntry (E : Ext) (s : Schema) (t : NamedType)
    (v : EnumValue) : List GraphQLError :=
  (match getEnumValueNodes t v.name with
   | some allNodes =>
     if allNodes.length > 1 then
       [mkErrorArr
         ("Enum type " ++ t.name ++ " can include value " ++ v.name ++
           " only once.")
         allNodes]
     else []
   | none => []) ++
    validateName E s v.name v.astNode ++
    (if v.name == "true" || v.name == "false" || v.name == "null" then
      [mkError1 ("Enum type " ++ t.name ++ " cannot include value: " ++
          v.name ++ ".")
        v.astNode]
     else [])

/-- `validateEnumValues`. -/
def validateEnumValues (E : Ext) (s : Schema) (t : NamedType) : List GraphQLError :=
  (if t.enumValues.length == 0 then
    [mkError1 ("Enum type " ++ t.name ++ " must define one or more values.")
      t.astNodeOf]
   else []) ++
    t.enumValues.flatMap (validateEnumValueEntry E s t)

/-- The per-field body of `validateInputFields` (no duplicate detection is
performed for input-object fields; the source marks it future work). -/
def validateInputFieldEntry (E : Ext) (s : Schema) (t : NamedType)
    (field : ArgDef) : List GraphQLError :=
  validateName E s field.name field.astNode ++
    (if field.type.isInputType || field.type.isInputUnionType then []
     else
      [mkError1
        ("The type of " ++ t.name ++ "." ++ field.name ++
          " must be Input Type but got: " ++ field.type.render ++ ".")
        (field.astNode.bind ASTNode.typeOf)])

/-- `validateInputFields`. -/
def validateInputFields (E : Ext) (s : Schema) (t : NamedType) : List GraphQLError :=
  (if t.inputFieldDefs.length == 0 then
    [mkError1
      ("Input Object type " ++ t.name ++ " must define one or more fields.")
      t.astNodeOf]
   else []) ++
    t.inputFieldDefs.flatMap (validateInputFieldEntry E s t)

/-- The per-kind dispatch of `validateTypes`. -/
def typeKindChecks (E : Ext) (s : Schema) (t : NamedType) : List GraphQLError :=
  match t with
  | .objectT .. => validateFields E s t ++ validateObjectInterfaces E t
  | .interfaceT .. => validateFields E s t
  | .unionT .. => validateUnionMembers t
  | .inputUnionT .. => validateInputUnionMembers t
  | .enumT .. => validateEnumValues E s t
  | .inputObjectT .. => validateInputFields E s t
  | _ => []

/-- The per-type body of `validateTypes`: a non-named value is reported
and skipped; a named type's own name is checked unless it is an
introspection type; then dispatch by kind. -/
def validateTypeEntry (E : Ext) (s : Schema) (t : NamedType) : List GraphQLError :=
  if t.isNamedType then
    (if E.isIntrospectionType t then []
     else validateName E s t.name t.astNodeOf) ++
      typeKindChecks E s t
  else
    [mkError1 ("Expected GraphQL named type but got: " ++ t.render ++ ".")
      t.astNodeOf]

/-- `validateTypes`. -/
def validateTypes (E : Ext) (s : Schema) : List GraphQLError :=
  s.typeMap.flatMap (validateTypeEntry E s)

/-- The underlying computation of `validateSchema`: roots, then
directives, then types, in that fixed order. -/
def computeValidationErrors (E : Ext) (s : Schema) : List GraphQLError :=
  validateRootTypes s ++ validateDirectives E s ++ validateTypes E s

/-- `validateSchema`: the one-shot cache cell, when populated, is returned
unchanged; otherwise the diagnostics are computed, persisted into the
cell, and returned. (The source's `invariant(isSchema(schema))` guard is a
fatal precondition on non-schema inputs, discharged here by typing.) The
cache write is state passing: the result pairs the diagnostics with the
updated schema. -/
def validateSchema (E : Ext) (schema : Schema) : List GraphQLError × Schema :=
  match schema.validationErrors with
  | some errs => (errs, schema)
  | none =>
      let errors := computeValidationErrors E schema
      (errors, { schema with validationErrors := some errors })

/-- `assertValidSchema`: re-invokes `validateSchema` and throws an `Error`
whose message joins every diagnostic's message with a blank line exactly
when the diagnostic list is non-empty. -/
def assertValidSchema (E : Ext) (schema : Schema) : Except String Schema :=
  let p := validateSchema E schema
  if p.1.length != 0 then
    Except.error (String.intercalate "\n\n" (p.1.map GraphQLError.message))
  else
    Except.ok p.2

end GraphQLValidate

namespace OrList

/-- `MAX_LENGTH` of `jsutils/orList.js`. -/
def MAX_LENGTH : Nat := 5

/-- The reducer body of `orList.js`: given the length `n` of the selected
list, the accumulator, the current item and its index, produce the next
accumulator. -/
def orListStep (n : Nat) (acc quoted : String) (index : Nat) : String :=
  acc ++ (if n > 2 then ", " else " ") ++
    (if index == n - 1 then "or " else "") ++ quoted

/-- `orList` of `jsutils/orList.js`: slice the first `MAX_LENGTH` items and
reduce with no initial accumulator. `Array.prototype.reduce` on an empty
array with no initial value throws, so the empty case returns `none`. -/
def orList (items : List String) : Option String :=
  let selected := items.take MAX_LENGTH
  match selected with
  | [] => none
  | x :: rest =>
      some ((rest.enumFrom 1).foldl
        (fun acc p => orListStep selected.length acc p.2 p.1) x)

/-- Join a list of strings with a separator between consecutive items. -/
def sepJoin (sep : String) : List String → String
  | [] => ""
  | [x] => x
  | x :: xs => x ++ sep ++ sepJoin sep xs

/-- Modelled from the spec claim's wording (a refinement target, not the
source): at most the first 5 items, comma-joined, the final item prefixed
with "or " exactly when at least 2 items remain after truncating to 5, a
single item rendered as itself with no prefix. -/
def claimedOrList (items : List String) : Option String :=
  match items.take MAX_LENGTH with
  | [] => none
  | [x] => some x
  | x :: rest =>
      some (sepJoin ", "
        ((x :: rest).dropLast ++ ["or " ++ ((x :: rest).getLast?.getD "")]))

/-- The amended rendering: identical to the claimed one except that the
separator is a plain space, not a comma, when 2 or fewer items remain
after truncating to 5. -/
def amendedOrList (items : List String) : Option String :=
  match items.take MAX_LENGTH with
  | [] => none
  | [x] => some x
  | x :: rest =>
      some (sepJoin (if (x :: rest).length > 2 then ", " else " ")
        ((x :: rest).dropLast ++ ["or " ++ ((x :: rest).getLast?.getD "")]))

end OrList

namespace GraphQLValidate

/-- A trivial instantiation of the external collaborators: the grammar
checker accepts every name, no type is an introspection type, and both
comparators are syntactic equality of type references. -/
def extTrivial : Ext where
  isValidNameError := fun _ _ => none
  isIntrospectionType := fun _ => false
  isTypeSubTypeOf := fun a b => a == b
  isEqualType := fun a b => a == b

/-- A well-formed query root field. -/
def qField : FieldDef :=
  { name := "q", type := .scalarRef "String", args := [], astNode := none }

/-- A well-formed query root type. -/
def queryRootType : NamedType := .objectT "Query" [qField] [] none none

/-- A minimal valid schema: one object root type, no directives, no AST. -/
def baseSchema : Schema :=
  { queryType := some queryRootType
    mutationType := none
    subscriptionType := none
    typeMap := [queryRootType]
    directives := []
    astNode := none
    allowedLegacyNames := none
    validationErrors := none }

/-- An Object-kind member type. -/
def memberObj : NamedType := .objectT "MObj" [qField] [] none none

/-- An InputObject-kind member type. -/
def memberInputObj : NamedType :=
  .inputObjectT "MIn" [{ name := "x", type := .scalarRef "Int", astNode := none }] none

/-- A Union containing an InputObject member and an Object member. -/
def unionWithInputObj : NamedType := .unionT "U" [memberInputObj, memberObj] none

/-- An InputUnion containing an Object member and an InputObject member. -/
def inputUnionWithObj : NamedType :=
  .inputUnionT "IU" [memberObj, memberInputObj] none

/-- A field declaring the same argument name twice, the second occurrence
with a type that is not input-classified. -/
def dupArgField : FieldDef :=
  { name := "f", type := .scalarRef "String"
    args := [{ name := "a", type := .scalarRef "Int", astNode := none },
             { name := "a", type := .objectRef "Obj", astNode := none }]
    astNode := none }

/-- An object type carrying `dupArgField`. -/
def dupArgType : NamedType := .objectT "T" [dupArgField] [] none none

/-- A schema whose only flaw is the duplicated field argument of
`dupArgType`. -/
def dupArgSchema : Schema := { baseSchema with typeMap := [queryRootType, dupArgType] }

/-- An enum declaring the reserved value name "true", whose AST defines
that value twice. -/
def dupEnumType : NamedType :=
  .enumT "En" [{ name := "true", astNode := none }]
    (some (.enumDef [.enumValueDef "true", .enumValueDef "true"]))

/-- A schema containing `dupEnumType`. -/
def dupEnumSchema : Schema := { baseSchema with typeMap := [queryRootType, dupEnumType] }

/-- Oracles for the introspection-bypass claim: the type named "__T" is an
introspection type, and the grammar checker rejects exactly the name
"bad". -/
def extIntro : Ext where
  isValidNameError := fun n ast =>
    if n == "bad" then some (mkError1 "Name error on bad" ast) else none
  isIntrospectionType := fun t => t.name == "__T"
  isTypeSubTypeOf := fun a b => a == b
  isEqualType := fun a b => a == b

/-- An introspection type (per `extIntro`) with a field whose name the
grammar checker rejects. -/
def introType : NamedType :=
  .objectT "__T"
    [{ name := "bad", type := .scalarRef "String", args := [], astNode := none }]
    [] none none

/-- A schema containing `introType`. -/
def introSchema : Schema := { baseSchema with typeMap := [queryRootType, introType] }

/-- The interface field `f(a: Int): String` of the spec's conformance
example. -/
def ifaceFieldF : FieldDef :=
  { name := "f", type := .scalarRef "String"
    args := [{ name := "a", type := .scalarRef "Int", astNode := none }]
    astNode := none }

/-- The interface `I` declaring `f(a: Int): String`. -/
def ifaceI : NamedType := .interfaceT "I" [ifaceFieldF] none none

/-- The object field `f(a: Int, b: Int): String` (the extra argument `b`
is optional: its type is not non-null). -/
def fieldFOptB : FieldDef :=
  { name := "f", type := .scalarRef "String"
    args := [{ name := "a", type := .scalarRef "Int", astNode := none },
             { name := "b", type := .scalarRef "Int", astNode := none }]
    astNode := none }

/-- The object field `f(a: Int, b: Int!): String` (the extra argument `b`
is required). -/
def fieldFReqB : FieldDef :=
  { name := "f", type := .scalarRef "String"
    args := [{ name := "a", type := .scalarRef "Int", astNode := none },
             { name := "b", type := .nonNull (.scalarRef "Int"), astNode := none }]
    astNode := none }

/-- Object `O` implementing `I` with an extra optional argument. -/
def objO : NamedType := .objectT "O" [fieldFOptB] [ifaceI] none none

/-- Object `O2` implementing `I` with an extra required argument. -/
def objO2 : NamedType := .objectT "O2" [fieldFReqB] [ifaceI] none none

/-- A schema with no query root type. -/
def noQuerySchema : Schema := { baseSchema with queryType := none }

/-- An Enum used as a root type. -/
def enumRoot : NamedType := .enumT "EnumRoot" [{ name := "A", astNode := none }] none

/-- A schema whose mutation root is an Enum. -/
def enumMutationSchema : Schema := { baseSchema with mutationType := some enumRoot }

end GraphQLValidate

section OrListClaims

open OrList

example : orList ["A", "B", "C"] = some "A, B, or C" := by decide
example : orList ["A", "B"] = some "A or B" := by decide
example : orList ["A", "B", "C", "D", "E", "F"] =
    some "A, B, C, D, or E" := by decide

/-- C9 counterexample: with exactly 2 items the source joins with a plain
space, not a comma — `orList ["A", "B"]` is "A or B", while the claimed
comma-joined rendering would be "A, or B". -/
theorem c9_counterexample :
    orList ["A", "B"] = some "A or B" ∧
      claimedOrList ["A", "B"] = some "A, or B" ∧
      orList ["A", "B"] ≠ claimedOrList ["A", "B"] :=
  ⟨by decide, by decide, by decide⟩

/-- C9 (amended): `orList` renders at most the first 5 items joined with
", " when more than 2 items remain and with " " when 2 or fewer remain,
the final item prefixed with "or " exactly when at least 2 items remain
after truncating to 5; a single item renders as itself with no prefix. -/
theorem c9_orList_rendering (items : List String) :
    orList items = amendedOrList items := by
  rcases items with _ | ⟨a, _ | ⟨b, _ | ⟨c, _ | ⟨d, _ | ⟨e, rest⟩⟩⟩⟩⟩
  · rfl
  · rfl
  · simp [orList, amendedOrList, orListStep, sepJoin, MAX_LENGTH,
      List.enumFrom, String.append_assoc, String.append_empty]
  · simp [orList, amendedOrList, orListStep, sepJoin, MAX_LENGTH,
      List.enumFrom, String.append_assoc, String.append_empty]
  · simp [orList, amendedOrList, orListStep, sepJoin, MAX_LENGTH,
      List.enumFrom, String.append_assoc, String.append_empty]
  · simp [orList, amendedOrList, orListStep, sepJoin, MAX_LENGTH,
      List.enumFrom, String.append_assoc, String.append_empty]

/-- C10: `orList` is partial at its public interface: applied to the empty
list the reduction has no initial accumulator and no value is returned;
applied to any non-empty list it returns a value. -/
theorem c10_orList_partial :
    orList [] = none ∧
      ∀ items : List String, items ≠ [] → ∃ s, orList items = some s := by
  refine ⟨rfl, ?_⟩
  intro items h
  match items with
  | [] => exact absurd rfl h
  | x :: rest => exact ⟨_, rfl⟩

/-- Witness for C10: the theorem applied at the concrete one-item list. -/
theorem c10_witness : ∃ s, orList ["A"] = some s :=
  c10_orList_partial.2 ["A"] (by decide)

end OrListClaims

namespace GraphQLValidate

example : (validateSchema extTrivial baseSchema).1 = [] := rfl
example : computeValidationErrors extTrivial noQuerySchema =
    [mkError1 "Query root type must be provided." none] := rfl

/-- C2: the one-shot validation cache: the schema returned by
`validateSchema` always has its cache cell populated with exactly the
returned list; a populated cell (including an empty list) is returned
unchanged together with the unmodified schema; an empty cell triggers the
underlying computation (roots, then directives, then types) exactly once,
whose result is persisted; hence a second call returns the first call's
exact list without recomputation. -/
theorem c2_validateSchema_cache (E : Ext) (s : Schema) :
    ((validateSchema E s).2.validationErrors = some (validateSchema E s).1) ∧
      (∀ errs, s.validationErrors = some errs → validateSchema E s = (errs, s)) ∧
      (s.validationErrors = none →
        validateSchema E s =
          (computeValidationErrors E s,
            { s with validationErrors := some (computeValidationErrors E s) })) ∧
      validateSchema E (validateSchema E s).2 = validateSchema E s := by
  rcases h : s.validationErrors with _ | errs
  · refine ⟨?_, ?_, ?_, ?_⟩ <;> simp [validateSchema, h]
  · refine ⟨?_, ?_, ?_, ?_⟩ <;> simp [validateSchema, h]

/-- Witness for C2: a populated (empty-list) cache cell is returned
unchanged, and validating the fresh base schema computes the empty list
and persists it. -/
theorem c2_witness :
    validateSchema extTrivial { baseSchema with validationErrors := some [] } =
        ([], { baseSchema with validationErrors := some [] }) ∧
      validateSchema extTrivial baseSchema =
        ([], { baseSchema with validationErrors := some [] }) := by
  constructor
  · exact (c2_validateSchema_cache extTrivial _).2.1 [] rfl
  · have h := (c2_validateSchema_cache extTrivial baseSchema).2.2.1 rfl
    rw [h]
    rfl

/-- C7: the strict entry point returns normally when the schema's
diagnostic list is empty, and otherwise fails with exactly the
diagnostics' messages joined by a blank line; it fails only in that
case and only with that message. -/
theorem c7_assertValidSchema (E : Ext) (s : Schema) :
    ((validateSchema E s).1 = [] →
        assertValidSchema E s = Except.ok (validateSchema E s).2) ∧
      ((validateSchema E s).1 ≠ [] →
        assertValidSchema E s =
          Except.error (String.intercalate "\n\n"
            ((validateSchema E s).1.map GraphQLError.message))) ∧
      ∀ m, assertValidSchema E s = Except.error m →
        (validateSchema E s).1 ≠ [] ∧
          m = String.intercalate "\n\n"
            ((validateSchema E s).1.map GraphQLError.message) := by
  refine ⟨?_, ?_, ?_⟩
  · intro h
    simp [assertValidSchema, h]
  · intro h
    rcases hl : (validateSchema E s).1 with _ | ⟨e, es⟩
    · exact absurd hl h
    · simp [assertValidSchema, hl]
  · intro m hm
    rcases hl : (validateSchema E s).1 with _ | ⟨e, es⟩
    · simp [assertValidSchema, hl] at hm
    · simp [assertValidSchema, hl] at hm
      simp [hl, hm]

/-- Witness for C7: the valid base schema passes the strict entry point;
the schema lacking a query root fails it with the lone diagnostic's
message. -/
theorem c7_witness :
    assertValidSchema extTrivial baseSchema =
        Except.ok (validateSchema extTrivial baseSchema).2 ∧
      assertValidSchema extTrivial noQuerySchema =
        Except.error "Query root type must be provided." := by
  constructor
  · exact (c7_assertValidSchema extTrivial baseSchema).1 rfl
  · have h := (c7_assertValidSchema extTrivial noQuerySchema).2.1
      (by rw [show (validateSchema extTrivial noQuerySchema).1 =
          [mkError1 "Query root type must be provided." none] from rfl]
          simp)
    rw [h]
    rfl

end GraphQLValidate

namespace GraphQLValidate

/-- The union member loop over members with pairwise-distinct names, all
unseen: no duplicate is ever reported and each member's kind is checked
exactly once. -/
theorem unionMembersLoop_eq_flatMap (u : NamedType) :
    ∀ (ms : List NamedType) (seen : List String),
      (∀ m ∈ ms, seen.contains m.name = false) →
      (ms.map NamedType.name).Nodup →
      unionMembersLoop u seen ms =
        ms.flatMap fun m => if m.isObjectType then [] else [unionKindError u m] := by
  intro ms
  induction ms with
  | nil => intro seen _ _; rfl
  | cons m rest ih =>
      intro seen hfresh hnodup
      have hm : seen.contains m.name = false := hfresh m (List.mem_cons_self m rest)
      have hrest : ∀ m' ∈ rest, (m.name :: seen).contains m'.name = false := by
        intro m' hm'
        have h1 : seen.contains m'.name = false :=
          hfresh m' (List.mem_cons_of_mem _ hm')
        have h2 : m'.name ≠ m.name := by
          intro he
          exact (List.nodup_cons.mp hnodup).1
            (he ▸ List.mem_map_of_mem NamedType.name hm')
        simp only [List.contains_cons, h2, Bool.or_eq_false_iff]
        refine ⟨by simp [h2], h1⟩
      have hnd : (rest.map NamedType.name).Nodup := (List.nodup_cons.mp hnodup).2
      simp only [unionMembersLoop, hm, Bool.false_eq_true, if_false,
        List.flatMap_cons]
      rw [ih (m.name :: seen) hrest hnd]

/-- The input-union member loop over members with pairwise-distinct names,
all unseen: no duplicate is reported and each member's kind is checked
exactly once. -/
theorem inputUnionMembersLoop_eq_flatMap (u : NamedType) :
    ∀ (ms : List NamedType) (seen : List String),
      (∀ m ∈ ms, seen.contains m.name = false) →
      (ms.map NamedType.name).Nodup →
      inputUnionMembersLoop u seen ms =
        ms.flatMap fun m =>
          if m.isInputObjectType then [] else [inputUnionKindError u m] := by
  intro ms
  induction ms with
  | nil => intro seen _ _; rfl
  | cons m rest ih =>
      intro seen hfresh hnodup
      have hm : seen.contains m.name = false := hfresh m (List.mem_cons_self m rest)
      have hrest : ∀ m' ∈ rest, (m.name :: seen).contains m'.name = false := by
        intro m' hm'
        have h1 : seen.contains m'.name = false :=
          hfresh m' (List.mem_cons_of_mem _ hm')
        have h2 : m'.name ≠ m.name := by
          intro he
          exact (List.nodup_cons.mp hnodup).1
            (he ▸ List.mem_map_of_mem NamedType.name hm')
        simp only [List.contains_cons, h2, Bool.or_eq_false_iff]
        refine ⟨by simp [h2], h1⟩
      have hnd : (rest.map NamedType.name).Nodup := (List.nodup_cons.mp hnodup).2
      simp only [inputUnionMembersLoop, hm, Bool.false_eq_true, if_false,
        List.flatMap_cons]
      rw [ih (m.name :: seen) hrest hnd]

/-- C1: over distinct member types, a Union's validator emits exactly one
kind diagnostic per member that is not Object-kind and none for Object
members; an InputUnion's validator emits exactly one kind diagnostic per
member that is not InputObject-kind and none for InputObject members; and
no named type is both Object-kind and InputObject-kind, so an InputObject
member inside a Union is reported, an Object member inside an InputUnion
is reported, and no named type is accepted by both rules. -/
theorem c1_union_member_kinds :
    (∀ u : NamedType, (u.memberTypes.map NamedType.name).Nodup →
        validateUnionMembers u =
          (if u.memberTypes.length == 0 then
            [mkError1 ("Union type " ++ u.name ++
                " must define one or more member types.") u.astNodeOf]
           else []) ++
            u.memberTypes.flatMap
              (fun m => if m.isObjectType then [] else [unionKindError u m])) ∧
      (∀ u : NamedType, (u.memberTypes.map NamedType.name).Nodup →
        validateInputUnionMembers u =
          (if u.memberTypes.length == 0 then
            [mkError1 ("Input Union type " ++ u.name ++
                " must define one or more member types.") u.astNodeOf]
           else []) ++
            u.memberTypes.flatMap
              (fun m =>
                if m.isInputObjectType then [] else [inputUnionKindError u m])) ∧
      ∀ m : NamedType, m.isObjectType = false ∨ m.isInputObjectType = false := by
  refine ⟨?_, ?_, ?_⟩
  · intro u hnd
    unfold validateUnionMembers
    rw [unionMembersLoop_eq_flatMap u u.memberTypes [] (by simp) hnd]
  · intro u hnd
    unfold validateInputUnionMembers
    rw [inputUnionMembersLoop_eq_flatMap u u.memberTypes [] (by simp) hnd]
  · intro m
    cases m <;> simp [NamedType.isObjectType, NamedType.isInputObjectType]

/-- Witness for C1: the Union containing an InputObject member yields
exactly its one kind diagnostic, the InputUnion containing an Object
member yields exactly its one kind diagnostic, and the Object member is
not accepted by both rules. -/
theorem c1_witness :
    validateUnionMembers unionWithInputObj =
        [unionKindError unionWithInputObj memberInputObj] ∧
      validateInputUnionMembers inputUnionWithObj =
        [inputUnionKindError inputUnionWithObj memberObj] ∧
      (memberObj.isObjectType = false ∨ memberObj.isInputObjectType = false) := by
  refine ⟨?_, ?_, c1_union_member_kinds.2.2 memberObj⟩
  · have h := c1_union_member_kinds.1 unionWithInputObj (by decide)
    rw [h]; rfl
  · have h := c1_union_member_kinds.2.1 inputUnionWithObj (by decide)
    rw [h]; rfl

end GraphQLValidate

namespace GraphQLValidate

/-- C3 counterexample: in the field-argument collection a reported
duplicate does not skip that element's type-classification check — the
schema whose field `T.f` declares `a` twice, the second time at a
non-input type, yields the duplicate diagnostic immediately followed by
the duplicate occurrence's own Input-Type diagnostic; likewise a
duplicated enum value still undergoes its deeper (reserved-name) check. -/
theorem c3_counterexample :
    (validateSchema extTrivial dupArgSchema).1 =
        [mkErrorArr "Field argument T.f(a:) can only be defined once." [],
         mkError1 "The type of T.f(a:) must be Input Type but got: Obj." none] ∧
      (validateSchema extTrivial dupEnumSchema).1 =
        [mkErrorArr "Enum type En can include value true only once."
            [.enumValueDef "true", .enumValueDef "true"],
         mkError1 "Enum type En cannot include value: true." none] :=
  ⟨rfl, rfl⟩

/-- C3 (amended): once a duplicate is reported, the element's deeper
checks are skipped for directive arguments, fields, union members,
input-union members and claimed interfaces, the loop continuing with the
other elements; but for field arguments and enum values the duplicate is
reported and that element's deeper checks (the input-type classification,
respectively the name and reserved-name checks) still run. -/
theorem c3_duplicate_skip_amended :
    (∀ (E : Ext) (s : Schema) (d : Directive) (seen : List String)
        (arg : ArgDef) (rest : List ArgDef), seen.contains arg.name = true →
      directiveArgsLoop E s d seen (arg :: rest) =
        validateName E s arg.name arg.astNode ++
          (mkErrorArr ("Argument @" ++ d.name ++ "(" ++ arg.name ++
              ":) can only be defined once.")
            (getAllDirectiveArgNodes d arg.name) ::
            directiveArgsLoop E s d seen rest)) ∧
      (∀ (E : Ext) (s : Schema) (t : NamedType) (field : FieldDef),
        (getAllFieldNodes t field.name).length > 1 →
        validateFieldEntry E s t field =
          validateName E s field.name field.astNode ++
            [mkErrorArr ("Field " ++ t.name ++ "." ++ field.name ++
                " can only be defined once.")
              (getAllFieldNodes t field.name)]) ∧
      (∀ (u : NamedType) (seen : List String) (m : NamedType)
          (rest : List NamedType), seen.contains m.name = true →
        unionMembersLoop u seen (m :: rest) =
          unionDupError u m.name :: unionMembersLoop u seen rest) ∧
      (∀ (u : NamedType) (seen : List String) (m : NamedType)
          (rest : List NamedType), seen.contains m.name = true →
        inputUnionMembersLoop u seen (m :: rest) =
          inputUnionDupError u m.name :: inputUnionMembersLoop u seen rest) ∧
      (∀ (E : Ext) (object : NamedType) (seen : List String)
          (iface : NamedType) (rest : List NamedType),
        seen.contains iface.name = true →
        objectInterfacesLoop E object seen (iface :: rest) =
          mkErrorArr ("Type " ++ object.name ++ " can only implement " ++
              iface.name ++ " once.")
            (getAllImplementsInterfaceNodes object iface) ::
            objectInterfacesLoop E object seen rest) ∧
      (∀ (E : Ext) (s : Schema) (t : NamedType) (fieldName : String)
          (seen : List String) (arg : ArgDef) (rest : List ArgDef),
        seen.contains arg.name = true →
        fieldArgsLoop E s t fieldName seen (arg :: rest) =
          validateName E s arg.name arg.astNode ++
            [mkErrorArr ("Field argument " ++ t.name ++ "." ++ fieldName ++
                "(" ++ arg.name ++ ":) can only be defined once.")
              (getAllFieldArgNodes t fieldName arg.name)] ++
            (if arg.type.isInputType || arg.type.isInputUnionType then []
             else
              [mkError1 ("The type of " ++ t.name ++ "." ++ fieldName ++
                  "(" ++ arg.name ++ ":) must be Input Type but got: " ++
                  arg.type.render ++ ".")
                (getFieldArgTypeNode t fieldName arg.name)]) ++
            fieldArgsLoop E s t fieldName (arg.name :: seen) rest) ∧
      ∀ (E : Ext) (s : Schema) (t : NamedType) (v : EnumValue)
          (nodes : List ASTNode), getEnumValueNodes t v.name = some nodes →
        nodes.length > 1 →
        validateEnumValueEntry E s t v =
          mkErrorArr ("Enum type " ++ t.name ++ " can include value " ++
              v.name ++ " only once.") nodes ::
            (validateName E s v.name v.astNode ++
              (if v.name == "true" || v.name == "false" || v.name == "null" then
                [mkError1 ("Enum type " ++ t.name ++ " cannot include value: " ++
                    v.name ++ ".") v.astNode]
               else [])) := by
  refine ⟨?_, ?_, ?_, ?_, ?_, ?_, ?_⟩
  · intro E s d seen arg rest h
    have h' : arg.name ∈ seen := by simpa using h
    simp [directiveArgsLoop, h']
  · intro E s t field h
    simp [validateFieldEntry, h]
  · intro u seen m rest h
    have h' : m.name ∈ seen := by simpa using h
    simp [unionMembersLoop, h']
  · intro u seen m rest h
    have h' : m.name ∈ seen := by simpa using h
    simp [inputUnionMembersLoop, h']
  · intro E object seen iface rest h
    have h' : iface.name ∈ seen := by simpa using h
    simp [objectInterfacesLoop, h']
  · intro E s t fieldName seen arg rest h
    have h' : arg.name ∈ seen := by simpa using h
    simp [fieldArgsLoop, h']
  · intro E s t v nodes hn hlen
    simp [validateEnumValueEntry, hn, hlen]

/-- Witness for C3 (amended), applying each conjunct at a concrete input
and evaluating: a duplicate directive argument is reported without its
type check; a twice-defined field is reported without deeper checks; a
duplicate union member, input-union member and interface claim are
reported without kind/conformance checks; a duplicate field argument is
reported and its failing type check still fires; a duplicate reserved
enum value is reported and the reserved-name check still fires. -/
theorem c3_witness :
    directiveArgsLoop extTrivial baseSchema
        ⟨"D", [], none⟩ ["x"] [⟨"x", GType.objectRef "Obj", none⟩] =
        [mkErrorArr "Argument @D(x:) can only be defined once." []] ∧
      validateFieldEntry extTrivial baseSchema
        (.objectT "T2" [⟨"f", GType.scalarRef "String", [], none⟩] []
          (some (.objectDef [.fieldDef "f" (.typeRefNode "String") [],
            .fieldDef "f" (.typeRefNode "String") []] [])) none)
        ⟨"f", GType.scalarRef "String", [], none⟩ =
        [mkErrorArr "Field T2.f can only be defined once."
          [.fieldDef "f" (.typeRefNode "String") [],
           .fieldDef "f" (.typeRefNode "String") []]] ∧
      unionMembersLoop unionWithInputObj ["MIn"] [memberInputObj] =
        [unionDupError unionWithInputObj "MIn"] ∧
      inputUnionMembersLoop inputUnionWithObj ["MObj"] [memberObj] =
        [inputUnionDupError inputUnionWithObj "MObj"] ∧
      objectInterfacesLoop extTrivial objO ["I"] [ifaceI] =
        [mkErrorArr "Type O can only implement I once." []] ∧
      fieldArgsLoop extTrivial dupArgSchema dupArgType "f" ["a"]
        [⟨"a", GType.objectRef "Obj", none⟩] =
        [mkErrorArr "Field argument T.f(a:) can only be defined once." [],
         mkError1 "The type of T.f(a:) must be Input Type but got: Obj." none] ∧
      validateEnumValueEntry extTrivial dupEnumSchema dupEnumType
        ⟨"true", none⟩ =
        [mkErrorArr "Enum type En can include value true only once."
            [.enumValueDef "true", .enumValueDef "true"],
         mkError1 "Enum type En cannot include value: true." none] := by
  refine ⟨?_, ?_, ?_, ?_, ?_, ?_, ?_⟩
  · rw [c3_duplicate_skip_amended.1 extTrivial baseSchema _ _ _ _ (by decide)]
    rfl
  · rw [c3_duplicate_skip_amended.2.1 extTrivial baseSchema _ _ (by decide)]
    rfl
  · rw [c3_duplicate_skip_amended.2.2.1 _ _ _ _ (by decide)]
    rfl
  · rw [c3_duplicate_skip_amended.2.2.2.1 _ _ _ _ (by decide)]
    rfl
  · rw [c3_duplicate_skip_amended.2.2.2.2.1 extTrivial _ _ _ _ (by decide)]
    rfl
  · rw [c3_duplicate_skip_amended.2.2.2.2.2.1 extTrivial dupArgSchema _ _ _ _ _
      (by decide)]
    rfl
  · rw [c3_duplicate_skip_amended.2.2.2.2.2.2 extTrivial dupEnumSchema
      dupEnumType ⟨"true", none⟩
      [ASTNode.enumValueDef "true", ASTNode.enumValueDef "true"] rfl (by decide)]
    rfl

end GraphQLValidate

namespace GraphQLValidate

/-- C4: for a field both the object and a claimed interface declare, the
return-type step accepts exactly when the external covariant-subtype
comparator accepts, and otherwise emits the one type-mismatch diagnostic
citing both declared types; for an interface-declared argument present on
the object's field, the argument step accepts exactly when the external
equality comparator finds the two argument types exactly equal, and
otherwise emits the one diagnostic citing both declared types; and for an
Interface-kind claim the conformance validator is exactly the per-field
check over the interface's fields. -/
theorem c4_interface_conformance_variance :
    (∀ (E : Ext) (object iface : NamedType) (fieldName : String)
        (oF iF : FieldDef),
      checkFieldReturnType E object iface fieldName oF iF = [] ↔
        E.isTypeSubTypeOf oF.type iF.type = true) ∧
      (∀ (E : Ext) (object iface : NamedType) (fieldName : String)
          (oF iF : FieldDef), E.isTypeSubTypeOf oF.type iF.type = false →
        checkFieldReturnType E object iface fieldName oF iF =
          [mkErrorL ("Interface field " ++ iface.name ++ "." ++ fieldName ++
              " expects type " ++ iF.type.render ++ " but " ++ object.name ++
              "." ++ fieldName ++ " is type " ++ oF.type.render ++ ".")
            [getFieldTypeNode iface fieldName,
             getFieldTypeNode object fieldName]]) ∧
      (∀ (E : Ext) (object iface : NamedType) (fieldName : String)
          (oF : FieldDef) (iArg oArg : ArgDef),
        oF.args.find? (fun a => a.name == iArg.name) = some oArg →
        (checkIfaceArg E object iface fieldName oF iArg = [] ↔
          E.isEqualType iArg.type oArg.type = true)) ∧
      (∀ (E : Ext) (object iface : NamedType) (fieldName : String)
          (oF : FieldDef) (iArg oArg : ArgDef),
        oF.args.find? (fun a => a.name == iArg.name) = some oArg →
        E.isEqualType iArg.type oArg.type = false →
        checkIfaceArg E object iface fieldName oF iArg =
          [mkErrorL ("Interface field argument " ++ iface.name ++ "." ++
              fieldName ++ "(" ++ iArg.name ++ ":) expects type " ++
              iArg.type.render ++ " but " ++ object.name ++ "." ++ fieldName ++
              "(" ++ iArg.name ++ ":) is type " ++ oArg.type.render ++ ".")
            [getFieldArgTypeNode iface fieldName iArg.name,
             getFieldArgTypeNode object fieldName iArg.name]]) ∧
      ∀ (E : Ext) (object iface : NamedType), iface.isInterfaceType = true →
        validateObjectImplementsInterface E object iface =
          iface.fieldDefs.flatMap (checkIfaceField E object iface) := by
  refine ⟨?_, ?_, ?_, ?_, ?_⟩
  · intro E object iface fieldName oF iF
    cases h : E.isTypeSubTypeOf oF.type iF.type <;>
      simp [checkFieldReturnType, h]
  · intro E object iface fieldName oF iF h
    simp [checkFieldReturnType, h]
  · intro E object iface fieldName oF iArg oArg hfind
    cases h : E.isEqualType iArg.type oArg.type <;>
      simp [checkIfaceArg, hfind, h]
  · intro E object iface fieldName oF iArg oArg hfind h
    simp [checkIfaceArg, hfind, h]
  · intro E object iface h
    simp [validateObjectImplementsInterface, h]

/-- Witness for C4 at the spec's conformance example: `O` implementing
`I { f(a: Int): String }` with an equal argument type and equal return
type passes every step, the conformance validator over `I` returns no
diagnostics, and a variant object argument `a: String` trips the
invariant argument comparison with the one diagnostic citing both types. -/
theorem c4_witness :
    checkFieldReturnType extTrivial objO ifaceI "f" fieldFOptB ifaceFieldF = [] ∧
      checkIfaceArg extTrivial objO ifaceI "f" fieldFOptB
        ⟨"a", GType.scalarRef "Int", none⟩ = [] ∧
      checkIfaceArg extTrivial objO ifaceI "f"
        ⟨"f", GType.scalarRef "String", [⟨"a", GType.scalarRef "String", none⟩],
          none⟩
        ⟨"a", GType.scalarRef "Int", none⟩ =
        [mkErrorL
          "Interface field argument I.f(a:) expects type Int but O.f(a:) is type String."
          [none, none]] ∧
      checkFieldReturnType extTrivial objO ifaceI "f"
        ⟨"f", GType.scalarRef "Int", [], none⟩ ifaceFieldF =
        [mkErrorL
          "Interface field I.f expects type String but O.f is type Int."
          [none, none]] ∧
      validateObjectImplementsInterface extTrivial objO ifaceI = [] := by
  refine ⟨?_, ?_, ?_, ?_, ?_⟩
  · exact (c4_interface_conformance_variance.1 extTrivial objO ifaceI "f"
      fieldFOptB ifaceFieldF).mpr (by decide)
  · exact (c4_interface_conformance_variance.2.2.1 extTrivial objO ifaceI "f"
      fieldFOptB ⟨"a", GType.scalarRef "Int", none⟩
      ⟨"a", GType.scalarRef "Int", none⟩ rfl).mpr (by decide)
  · rw [c4_interface_conformance_variance.2.2.2.1 extTrivial objO ifaceI "f"
      ⟨"f", GType.scalarRef "String", [⟨"a", GType.scalarRef "String", none⟩],
        none⟩
      ⟨"a", GType.scalarRef "Int", none⟩
      ⟨"a", GType.scalarRef "String", none⟩ rfl (by decide)]
    rfl
  · rw [c4_interface_conformance_variance.2.1 extTrivial objO ifaceI "f"
      ⟨"f", GType.scalarRef "Int", [], none⟩ ifaceFieldF (by decide)]
    rfl
  · rw [c4_interface_conformance_variance.2.2.2.2 extTrivial objO ifaceI rfl]
    rfl

/-- C5: an argument the object's field declares that the interface's field
does not declare yields exactly one diagnostic when its type is a
non-null wrapper and none otherwise; an argument the interface also
declares yields no extra-argument diagnostic. -/
theorem c5_extra_args_required :
    (∀ (object iface : NamedType) (fieldName : String) (iF : FieldDef)
        (oArg : ArgDef),
      iF.args.find? (fun a => a.name == oArg.name) = none →
      checkExtraArg object iface fieldName iF oArg =
        (if oArg.type.isNonNullType then
          [mkErrorL ("Object field argument " ++ object.name ++ "." ++
              fieldName ++ "(" ++ oArg.name ++ ":) is of required type " ++
              oArg.type.render ++
              " but is not also provided by the Interface field " ++
              iface.name ++ "." ++ fieldName ++ ".")
            [getFieldArgTypeNode object fieldName oArg.name,
             getFieldNode iface fieldName]]
         else [])) ∧
      (∀ (object iface : NamedType) (fieldName : String) (iF : FieldDef)
          (oArg : ArgDef),
        iF.args.find? (fun a => a.name == oArg.name) = none →
        (checkExtraArg object iface fieldName iF oArg).length =
          if oArg.type.isNonNullType then 1 else 0) ∧
      ∀ (object iface : NamedType) (fieldName : String) (iF : FieldDef)
          (oArg iArg : ArgDef),
        iF.args.find? (fun a => a.name == oArg.name) = some iArg →
        checkExtraArg object iface fieldName iF oArg = [] := by
  refine ⟨?_, ?_, ?_⟩
  · intro object iface fieldName iF oArg h
    simp [checkExtraArg, h]
  · intro object iface fieldName iF oArg h
    cases hn : oArg.type.isNonNullType <;> simp [checkExtraArg, h, hn]
  · intro object iface fieldName iF oArg iArg h
    simp [checkExtraArg, h]

/-- Witness for C5 at the spec's example: the extra required argument
`b: Int!` of `O2.f` yields exactly the one diagnostic citing `b`, the
extra optional argument `b: Int` of `O.f` yields none, and the shared
argument `a` yields none. -/
theorem c5_witness :
    checkExtraArg objO2 ifaceI "f" ifaceFieldF
        ⟨"b", GType.nonNull (GType.scalarRef "Int"), none⟩ =
        [mkErrorL
          "Object field argument O2.f(b:) is of required type Int! but is not also provided by the Interface field I.f."
          [none, none]] ∧
      (checkExtraArg objO2 ifaceI "f" ifaceFieldF
        ⟨"b", GType.nonNull (GType.scalarRef "Int"), none⟩).length = 1 ∧
      checkExtraArg objO ifaceI "f" ifaceFieldF
        ⟨"b", GType.scalarRef "Int", none⟩ = [] ∧
      checkExtraArg objO ifaceI "f" ifaceFieldF
        ⟨"a", GType.scalarRef "Int", none⟩ = [] := by
  refine ⟨?_, ?_, ?_, ?_⟩
  · rw [c5_extra_args_required.1 objO2 ifaceI "f" ifaceFieldF
      ⟨"b", GType.nonNull (GType.scalarRef "Int"), none⟩ rfl]
    rfl
  · rw [c5_extra_args_required.2.1 objO2 ifaceI "f" ifaceFieldF
      ⟨"b", GType.nonNull (GType.scalarRef "Int"), none⟩ rfl]
    rfl
  · rw [c5_extra_args_required.1 objO ifaceI "f" ifaceFieldF
      ⟨"b", GType.scalarRef "Int", none⟩ rfl]
    rfl
  · exact c5_extra_args_required.2.2 objO ifaceI "f" ifaceFieldF
      ⟨"a", GType.scalarRef "Int", none⟩ ⟨"a", GType.scalarRef "Int", none⟩ rfl

end GraphQLValidate

namespace GraphQLValidate

/-- A message of the shape `pre ++ mid ++ suf` is not `tgt` once `tgt` is
shorter than the fixed prefix and suffix combined. -/
theorem msg_long_beq_false (pre mid suf tgt : String)
    (h : tgt.length < pre.length + suf.length) :
    ((pre ++ mid ++ suf) == tgt) = false := by
  rw [beq_eq_false_iff_ne]
  intro he
  have hl : (pre ++ mid ++ suf).length = tgt.length := by rw [he]
  rw [String.length_append, String.length_append] at hl
  omega

/-- The query-root branch contributes the missing-root message exactly
when the query root is absent. -/
theorem queryRootErrors_countP (s : Schema) :
    (queryRootErrors s).countP
        (fun e => e.message == "Query root type must be provided.") =
      if s.queryType.isNone then 1 else 0 := by
  unfold queryRootErrors
  rcases s.queryType with _ | t
  · rfl
  · cases ht : t.isObjectType
    · have hb := msg_long_beq_false "Query root type must be Object type, it cannot be "
        t.render "." "Query root type must be provided." (by decide)
      simp [ht, List.countP_cons, mkError1, hb]
    · simp [ht]

/-- The mutation-root branch never contributes the missing-query-root
message. -/
theorem mutationRootErrors_countP (s : Schema) :
    (mutationRootErrors s).countP
        (fun e => e.message == "Query root type must be provided.") = 0 := by
  unfold mutationRootErrors
  rcases s.mutationType with _ | t
  · rfl
  · cases ht : t.isObjectType
    · have hb := msg_long_beq_false
        "Mutation root type must be Object type if provided, it cannot be "
        t.render "." "Query root type must be provided." (by decide)
      simp [ht, List.countP_cons, mkError1, hb]
    · simp [ht]

/-- The subscription-root branch never contributes the missing-query-root
message. -/
theorem subscriptionRootErrors_countP (s : Schema) :
    (subscriptionRootErrors s).countP
        (fun e => e.message == "Query root type must be provided.") = 0 := by
  unfold subscriptionRootErrors
  rcases s.subscriptionType with _ | t
  · rfl
  · cases ht : t.isObjectType
    · have hb := msg_long_beq_false
        "Subscription root type must be Object type if provided, it cannot be "
        t.render "." "Query root type must be provided." (by decide)
      simp [ht, List.countP_cons, mkError1, hb]
    · simp [ht]

/-- C6: root-type validation emits the diagnostic whose message is
"Query root type must be provided." exactly once when the schema lacks a
query root and never otherwise, locating it at the schema's own AST node;
a present root of any operation that is not Object-kind yields exactly one
diagnostic citing the root's rendered value; an absent mutation or
subscription root yields no diagnostic. -/
theorem c6_root_types (s : Schema) :
    ((validateRootTypes s).countP
        (fun e => e.message == "Query root type must be provided.") =
      if s.queryType.isNone then 1 else 0) ∧
      (s.queryType = none →
        validateRootTypes s =
          mkError1 "Query root type must be provided." s.astNode ::
            (mutationRootErrors s ++ subscriptionRootErrors s)) ∧
      (∀ t, s.queryType = some t → t.isObjectType = false →
        queryRootErrors s =
          [mkError1 ("Query root type must be Object type, it cannot be " ++
              t.render ++ ".") (getOperationTypeNode s t "query")]) ∧
      (s.mutationType = none → mutationRootErrors s = []) ∧
      (∀ t, s.mutationType = some t → t.isObjectType = false →
        mutationRootErrors s =
          [mkError1
            ("Mutation root type must be Object type if provided, it cannot be " ++
              t.render ++ ".") (getOperationTypeNode s t "mutation")]) ∧
      (s.subscriptionType = none → subscriptionRootErrors s = []) ∧
      ∀ t, s.subscriptionType = some t → t.isObjectType = false →
        subscriptionRootErrors s =
          [mkError1
            ("Subscription root type must be Object type if provided, it cannot be " ++
              t.render ++ ".") (getOperationTypeNode s t "subscription")] := by
  refine ⟨?_, ?_, ?_, ?_, ?_, ?_, ?_⟩
  · unfold validateRootTypes
    rw [List.countP_append, List.countP_append, queryRootErrors_countP,
      mutationRootErrors_countP, subscriptionRootErrors_countP]
    simp
  · intro h
    unfold validateRootTypes queryRootErrors
    rw [h]
    simp
  · intro t h ht
    unfold queryRootErrors
    rw [h]
    simp [ht]
  · intro h
    unfold mutationRootErrors
    rw [h]
  · intro t h ht
    unfold mutationRootErrors
    rw [h]
    simp [ht]
  · intro h
    unfold subscriptionRootErrors
    rw [h]
  · intro t h ht
    unfold subscriptionRootErrors
    rw [h]
    simp [ht]

/-- Witness for C6: the schema lacking a query root yields exactly the one
missing-root diagnostic; an Enum query root, an Enum mutation root and an
Enum subscription root each yield their one kind diagnostic; absent
mutation and subscription roots yield none. -/
theorem c6_witness :
    validateRootTypes noQuerySchema =
        [mkError1 "Query root type must be provided." none] ∧
      queryRootErrors { baseSchema with queryType := some enumRoot } =
        [mkError1 "Query root type must be Object type, it cannot be EnumRoot."
          none] ∧
      mutationRootErrors enumMutationSchema =
        [mkError1
          "Mutation root type must be Object type if provided, it cannot be EnumRoot."
          none] ∧
      mutationRootErrors baseSchema = [] ∧
      subscriptionRootErrors
          { baseSchema with subscriptionType := some enumRoot } =
        [mkError1
          "Subscription root type must be Object type if provided, it cannot be EnumRoot."
          none] ∧
      subscriptionRootErrors baseSchema = [] := by
  refine ⟨?_, ?_, ?_, ?_, ?_, ?_⟩
  · rw [(c6_root_types noQuerySchema).2.1 rfl]
    rfl
  · rw [(c6_root_types { baseSchema with queryType := some enumRoot }).2.2.1
      enumRoot rfl rfl]
    rfl
  · rw [(c6_root_types enumMutationSchema).2.2.2.2.1 enumRoot rfl rfl]
    rfl
  · exact (c6_root_types baseSchema).2.2.2.1 rfl
  · rw [(c6_root_types
      { baseSchema with subscriptionType := some enumRoot }).2.2.2.2.2.2
      enumRoot rfl rfl]
    rfl
  · exact (c6_root_types baseSchema).2.2.2.2.2.1 rfl

end GraphQLValidate

namespace GraphQLValidate

/-- C8 counterexample: under `extIntro` the type "__T" belongs to the
introspection set, yet validating `introSchema` still invokes the
name-grammar checker on that type's field named "bad" and surfaces the
checker's diagnostic — so the grammar check is not bypassed for the
fields of an introspection entity, only for its own type name. -/
theorem c8_counterexample :
    extIntro.isIntrospectionType introType = true ∧
      (validateSchema extIntro introSchema).1 =
        [mkError1 "Name error on bad" none] :=
  ⟨rfl, rfl⟩

/-- C8 (amended): the introspection bypass covers exactly the type's own
name — for an introspection type the per-type body is the kind dispatch
alone, while for any other named type it is the name check followed by
the kind dispatch (whose field, argument and enum-value name checks run
either way); the only bypass inside the name validator itself is a name
contained in the schema's legacy-name allowlist. -/
theorem c8_introspection_bypass_amended :
    (∀ (E : Ext) (s : Schema) (t : NamedType), t.isNamedType = true →
      E.isIntrospectionType t = true →
      validateTypeEntry E s t = typeKindChecks E s t) ∧
      (∀ (E : Ext) (s : Schema) (t : NamedType), t.isNamedType = true →
        E.isIntrospectionType t = false →
        validateTypeEntry E s t =
          validateName E s t.name t.astNodeOf ++ typeKindChecks E s t) ∧
      ∀ (E : Ext) (s : Schema) (name : String) (ast : Option ASTNode)
          (l : List String), s.allowedLegacyNames = some l →
        l.contains name = true → validateName E s name ast = [] := by
  refine ⟨?_, ?_, ?_⟩
  · intro E s t h1 h2
    simp [validateTypeEntry, h1, h2]
  · intro E s t h1 h2
    simp [validateTypeEntry, h1, h2]
  · intro E s name ast l hl hc
    have hc' : name ∈ l := by simpa using hc
    simp [validateName, hl, hc']

/-- Witness for C8 (amended): the introspection type's entry is exactly
its kind dispatch (which still surfaces the rejected field name), the
non-introspection root type's entry prepends its (clean) name check, and
an allowlisted name passes the name validator unchecked. -/
theorem c8_witness :
    validateTypeEntry extIntro introSchema introType =
        [mkError1 "Name error on bad" none] ∧
      validateTypeEntry extIntro introSchema queryRootType = [] ∧
      validateName extIntro
        { baseSchema with allowedLegacyNames := some ["bad"] } "bad" none =
        [] := by
  refine ⟨?_, ?_, ?_⟩
  · rw [c8_introspection_bypass_amended.1 extIntro introSchema introType
      rfl rfl]
    rfl
  · rw [c8_introspection_bypass_amended.2.1 extIntro introSchema queryRootType
      rfl rfl]
    rfl
  · exact c8_introspection_bypass_amended.2.2 extIntro _ "bad" none ["bad"]
      rfl rfl

end GraphQLValidate
